import Mathlib

/-!
Verification of the consistent-hashing core of `docker_client.py`
(classes `ConsistentNode`, `ConsistentHashing.Hash`, `ConsistentHashing.Ring`
and the `ConsistentHashing` facade), shallowly embedded in Lean 4.

Values that Python hashes (`str(_val).encode()`) are modelled as byte lists
(`List Nat`, each entry `< 256`; all strings involved are ASCII so UTF-8
bytes coincide with code points).  `hashlib.md5(...).hexdigest()` followed by
`int(..., 16)` is modelled by a full executable MD5 implementation below:
the hexdigest lists the 16 digest bytes in order, so parsing it in base 16
interprets those bytes big-endian.

Python object identity (`is`) between ring slots and node objects matters in
`Ring.update` and `Ring.expand_ring`; nodes therefore carry an explicit
object-identity token `oid` and `is` is modelled by `pyIs`.
-/

set_option maxRecDepth 100000

namespace DockerClient

/-! ### MD5 (RFC 1321), executable on byte lists -/

/-- Truncate to a 32-bit word. -/
def w32 (x : Nat) : Nat := x % 4294967296

/-- 32-bit bitwise complement (argument assumed `< 2^32`). -/
def not32 (x : Nat) : Nat := 4294967295 - x

/-- 32-bit left rotation by `s` bits. -/
def rotl32 (x s : Nat) : Nat := w32 (x <<< s) ||| (x >>> (32 - s))

/-- The 64 MD5 round constants `K[i] = floor(2^32 * |sin(i+1)|)`. -/
def md5K : List Nat :=
  [3614090360, 3905402710, 606105819, 3250441966, 4118548399, 1200080426,
   2821735955, 4249261313, 1770035416, 2336552879, 4294925233, 2304563134,
   1804603682, 4254626195, 2792965006, 1236535329, 4129170786, 3225465664,
   643717713, 3921069994, 3593408605, 38016083, 3634488961, 3889429448,
   568446438, 3275163606, 4107603335, 1163531501, 2850285829, 4243563512,
   1735328473, 2368359562, 4294588738, 2272392833, 1839030562, 4259657740,
   2763975236, 1272893353, 4139469664, 3200236656, 681279174, 3936430074,
   3572445317, 76029189, 3654602809, 3873151461, 530742520, 3299628645,
   4096336452, 1126891415, 2878612391, 4237533241, 1700485571, 2399980690,
   4293915773, 2240044497, 1873313359, 4264355552, 2734768916, 1309151649,
   4149444226, 3174756917, 718787259, 3951481745]

/-- The MD5 per-round left-rotation amounts. -/
def md5S : List Nat :=
  [7, 12, 17, 22, 7, 12, 17, 22, 7, 12, 17, 22, 7, 12, 17, 22,
   5, 9, 14, 20, 5, 9, 14, 20, 5, 9, 14, 20, 5, 9, 14, 20,
   4, 11, 16, 23, 4, 11, 16, 23, 4, 11, 16, 23, 4, 11, 16, 23,
   6, 10, 15, 21, 6, 10, 15, 21, 6, 10, 15, 21, 6, 10, 15, 21]

/-- MD5 padding: append `0x80`, zero-pad to 56 mod 64, then the original
length in bits as a 64-bit little-endian quantity. -/
def md5Pad (msg : List Nat) : List Nat :=
  let z := (119 - msg.length % 64) % 64
  let bitLen := (8 * msg.length) % 18446744073709551616
  msg ++ [128] ++ List.replicate z 0 ++
    (List.range 8).map (fun i => bitLen >>> (8 * i) % 256)

/-- Split a padded message into its 64-byte chunks (the padded length is a
multiple of 64). -/
def md5Chunks (bs : List Nat) : List (List Nat) :=
  (List.range (bs.length / 64)).map (fun i => (bs.drop (64 * i)).take 64)

/-- The sixteen little-endian 32-bit words of one 64-byte chunk. -/
def md5Words (chunk : List Nat) : List Nat :=
  (List.range 16).map (fun j =>
    chunk.getD (4 * j) 0 + 256 * chunk.getD (4 * j + 1) 0 +
    65536 * chunk.getD (4 * j + 2) 0 + 16777216 * chunk.getD (4 * j + 3) 0)

/-- One MD5 round: mixes round `i` into the state `(a, b, c, d)`. -/
def md5Round (m : List Nat) (st : Nat × Nat × Nat × Nat) (i : Nat) :
    Nat × Nat × Nat × Nat :=
  let (a, b, c, d) := st
  let (f, g) :=
    if i < 16 then ((b &&& c) ||| (not32 b &&& d), i)
    else if i < 32 then ((d &&& b) ||| (not32 d &&& c), (5 * i + 1) % 16)
    else if i < 48 then (b ^^^ c ^^^ d, (3 * i + 5) % 16)
    else (c ^^^ (b ||| not32 d), (7 * i) % 16)
  let sum := w32 (a + f + md5K.getD i 0 + m.getD g 0)
  (d, w32 (b + rotl32 sum (md5S.getD i 0)), b, c)

/-- Process one 64-byte chunk, updating the running MD5 state. -/
def md5Chunk (st : Nat × Nat × Nat × Nat) (chunk : List Nat) :
    Nat × Nat × Nat × Nat :=
  let (a0, b0, c0, d0) := st
  let m := md5Words chunk
  let (a, b, c, d) := (List.range 64).foldl (md5Round m) (a0, b0, c0, d0)
  (w32 (a0 + a), w32 (b0 + b), w32 (c0 + c), w32 (d0 + d))

/-- The four bytes of a 32-bit word, little-endian. -/
def leBytes (x : Nat) : List Nat :=
  [x % 256, x >>> 8 % 256, x >>> 16 % 256, x >>> 24 % 256]

/-- Interpret a byte list as a big-endian natural number (this is what
Python computes from the digest bytes via `int(hexdigest, 16)`). -/
def beToNat (bs : List Nat) : Nat := bs.foldl (fun acc b => 256 * acc + b) 0

/-- `int(hashlib.md5(bytes).hexdigest(), 16)` as a function on byte lists. -/
def md5Int (msg : List Nat) : Nat :=
  let (a, b, c, d) :=
    (md5Chunks (md5Pad msg)).foldl md5Chunk
      (1732584193, 4023233417, 2562383102, 271733878)
  beToNat (leBytes a ++ leBytes b ++ leBytes c ++ leBytes d)

/-! ### Data model: `ConsistentNode`, `Hash.find_index`, `Ring` state -/

/-- `ConsistentNode.__init__` / `__str__` from the source.  `node` is the
identifier string as a byte list and `is_down` the health flag (`False` at
creation).  `oid` is the Python object identity of the instance (`id(...)`):
two values denote the same Python object exactly when their `oid`s agree;
scenario constructions always use distinct `oid`s for distinct allocations. -/
structure ConsistentNode where
  oid : Nat
  node : List Nat
  is_down : Bool
deriving DecidableEq, Repr

/-- Byte form of the Python `str` of a bool: `"True"` / `"False"`. -/
def boolStr (b : Bool) : List Nat :=
  if b then [84, 114, 117, 101] else [70, 97, 108, 115, 101]

/-- `ConsistentNode.__str__`, the f-string over `self.node` and
`self.is_down`, as bytes: the id, a space, then `"True"`/`"False"`. -/
def nodeStr (n : ConsistentNode) : List Nat := n.node ++ [32] ++ boolStr n.is_down

/-- `str(val)` for a ring slot: the Python `str` of `None` is `"None"`; an occupied
slot stringifies its node.  (`expand_ring` stringifies raw slot values.) -/
def slotStr : Option ConsistentNode → List Nat
  | none => [78, 111, 110, 101]
  | some n => nodeStr n

/-- `ConsistentHashing.Hash.find_index` on an already-non-null value:
`int(hashlib.md5(str(_val).encode()).hexdigest(), 16) % final_capacity`.
The null guard of the source is `find_index_checked` below; every internal
call site passes a non-null value. -/
def find_index (valBytes : List Nat) (final_capacity : Nat) : Nat :=
  md5Int valBytes % final_capacity

/-- Errors a modelled operation can raise.  `valueError` is the
`ValueError("None types are forbidden")` of `Hash.find_index`. -/
inductive PyError where
  | valueError
deriving DecidableEq, Repr

/-- `ConsistentHashing.Hash.find_index` including its null check: a null
value raises `ValueError`, otherwise the index is computed. -/
def find_index_checked (val : Option (List Nat)) (final_capacity : Nat) :
    Except PyError Nat :=
  match val with
  | none => .error .valueError
  | some bs => .ok (find_index bs final_capacity)

/-- `ConsistentHashing.Ring` state: the slot list `__ring` and the
`capacity` field.  (`__init__` makes them agree; the source can let them
drift apart, which the theorems below exhibit.) -/
structure RingState where
  ring : List (Option ConsistentNode)
  capacity : Nat
deriving DecidableEq, Repr

/-- `Ring.__init__(capacity)`: `capacity` empty slots. -/
def ringInit (capacity : Nat) : RingState :=
  { ring := List.replicate capacity none, capacity := capacity }

/-- Python `is` between a ring slot and another slot value: `None is None`
is true; two nodes are identical exactly when their `oid`s agree; a node is
never identical to `None`. -/
def pyIs : Option ConsistentNode → Option ConsistentNode → Bool
  | none, none => true
  | some a, some b => a.oid == b.oid
  | _, _ => false

/-! ### `Ring.put_server` and `Ring.expand_ring` -/

/-- The first-pass probe loop of `put_server`
(`for i in range(c_index, len(ring)): if ring[i] is None: ...`): index of
the first empty slot in `[i, i + fuel)`, if any.  The loop variable `c_idx`
of the source ends at exactly this index when a slot is found and at
`len(ring)` otherwise, so the `c_idx == len` test of the source is the `none`
case here. -/
def firstNoneFrom (ring : List (Option ConsistentNode)) : Nat → Nat → Option Nat
  | _, 0 => none
  | i, fuel + 1 =>
    if (ring.getD i none).isNone then some i
    else firstNoneFrom ring (i + 1) fuel

/-- `Ring.should_expand`: true iff every slot is occupied. -/
def should_expand (s : RingState) : Bool :=
  s.ring.all (fun v => !v.isNone)

/-- The inner placement loop of `expand_ring` for one old value `val`:
`for i in range(idx, n_capacity): if n_ring[i] is None: n_ring[i] = val;
v += 1` — the source has no `break`, so `val` is copied into **every**
empty slot of `[i, i + fuel)`; returns the updated array and the final
count `v`. -/
def fillFrom (val : Option ConsistentNode) :
    List (Option ConsistentNode) → Nat → Nat → Nat →
    List (Option ConsistentNode) × Nat
  | r, _, 0, v => (r, v)
  | r, i, fuel + 1, v =>
    if (r.getD i none).isNone then fillFrom val (r.set i val) (i + 1) fuel (v + 1)
    else fillFrom val r (i + 1) fuel v

/-- Placement of one old slot value during the rehash loop of `expand_ring`,
exactly as in the source: home slot if empty, else the no-`break` fill loop
`fillFrom`, then the dead wraparound branch (`if v is n_capacity - 1 and
n_ring[v] is not val: for i in range(0, idx): if n_ring[idx] is None: ...`
— it re-tests the home slot `idx`, which is occupied here).  The `is`
comparison between the small ints `v` and `n_capacity - 1` follows
CPython small-integer caching and is equality at the sizes exercised
here. -/
def expand_place (n_capacity : Nat) (r : List (Option ConsistentNode))
    (val : Option ConsistentNode) : List (Option ConsistentNode) :=
  let idx := find_index (slotStr val) n_capacity
  if (r.getD idx none).isNone then r.set idx val
  else
    let (r2, v) := fillFrom val r idx (n_capacity - idx) 0
    if v == n_capacity - 1 && !pyIs (r2.getD v none) val then
      (List.range idx).foldl
        (fun r3 _ => if (r3.getD idx none).isNone then r3.set idx val else r3) r2
    else r2

/-- `Ring.expand_ring`: when `should_expand` holds, rehash every old slot
value (ascending old index) into a fresh array of capacity
`2 * capacity + 1`; otherwise do nothing. -/
def expand_ring (s : RingState) : RingState :=
  if should_expand s then
    let n_capacity := s.capacity * 2 + 1
    let n_ring := s.ring.foldl (expand_place n_capacity)
      (List.replicate n_capacity none)
    { ring := n_ring, capacity := n_capacity }
  else s

/-- The second loop of `put_server`
(`for i in range(0, c_index): if c_index == i + 1 and ring[i] is not None:
ring.append(node); expand_ring()`): only `i = c_index - 1` can satisfy
`c_index == i + 1`, and when that slot is occupied the node is appended and
`expand_ring` runs. -/
def put_wrap_check (node : ConsistentNode) (c_index : Nat) (s : RingState) :
    RingState :=
  (List.range c_index).foldl
    (fun t i =>
      if c_index == i + 1 && !(t.ring.getD i none).isNone then
        expand_ring { t with ring := t.ring ++ [some node] }
      else t) s

/-- `Ring.put_server` on a non-null node: hash the string form of the node
modulo `len(__ring)`, place it at its home slot if empty, else at the first
empty slot of `[c_index, len)`; if that region is full, run the wrap check
(which may append and expand, or silently drop the node). -/
def put_server (node : ConsistentNode) (s : RingState) : RingState :=
  let c_index := find_index (nodeStr node) s.ring.length
  if (s.ring.getD c_index none).isNone then
    { s with ring := s.ring.set c_index (some node) }
  else
    match firstNoneFrom s.ring c_index (s.ring.length - c_index) with
    | some i => { s with ring := s.ring.set i (some node) }
    | none => put_wrap_check node c_index s

/-! ### `Ring.get_server`, `Ring.update`, deletes -/

/-- One probe loop of `get_server`: the loops in the source run `fuel` times but
test `ring[idx]` (the home index) at every iteration instead of the loop
variable, so they can only ever return the home slot. -/
def get_scan (s : RingState) (idx : Nat) : Nat → Option ConsistentNode
  | 0 => none
  | fuel + 1 =>
    if !(s.ring.getD idx none).isNone then s.ring.getD idx none
    else get_scan s idx fuel

/-- `Ring.get_server(request)`: hash the request modulo `capacity`; return
the home slot if occupied, else run the two (home-index-retesting) probe
loops over `range(idx, capacity)` and `range(0, idx)`, else `None`. -/
def get_server (request : List Nat) (s : RingState) : Option ConsistentNode :=
  let idx := find_index request s.capacity
  if !(s.ring.getD idx none).isNone then s.ring.getD idx none
  else
    match get_scan s idx (s.capacity - idx) with
    | some n => some n
    | none => get_scan s idx idx

/-- One search loop of `Ring.update`
(`for i in range(..): if ring[i] is _node: ring[i] = n_node; return True`):
find the first slot in `[i, i + fuel)` holding the very object `target`
(identity, not id equality) and overwrite it. -/
def update_scan (target : ConsistentNode) (n_node : Option ConsistentNode)
    (r : List (Option ConsistentNode)) :
    Nat → Nat → Option (List (Option ConsistentNode))
  | _, 0 => none
  | i, fuel + 1 =>
    if pyIs (r.getD i none) (some target) then some (r.set i n_node)
    else update_scan target n_node r (i + 1) fuel

/-- `Ring.update(_node, n_node)`: returns the boolean result of the source
method together with the updated state.  The guard is the literal
`ring[expected_idx] is None or ring[expected_idx] is not _node or
n_node is not None`; when it fails the method falls through to
`return False` without touching the ring. -/
def update (t : ConsistentNode) (n_node : Option ConsistentNode)
    (s : RingState) : Bool × RingState :=
  let expected_idx := find_index (nodeStr t) s.capacity
  if (s.ring.getD expected_idx none).isNone
      || !pyIs (s.ring.getD expected_idx none) (some t)
      || !n_node.isNone then
    match update_scan t n_node s.ring expected_idx (s.capacity - expected_idx) with
    | some r => (true, { s with ring := r })
    | none =>
      match update_scan t n_node s.ring 0 expected_idx with
      | some r => (true, { s with ring := r })
      | none => (false, s)
  else (false, s)

/-- `Ring.delete(_node) = update(_node, None)`. -/
def delete (t : ConsistentNode) (s : RingState) : Bool × RingState :=
  update t none s

/-- `Ring.soft_delete(_node)`: allocate a fresh `ConsistentNode` with the
same id and `is_down = True` and pass it to `update`.  `freshOid` is the
object identity of that new allocation (its value never influences the
result: the replacement object is only ever compared against `None`). -/
def soft_delete (freshOid : Nat) (t : ConsistentNode) (s : RingState) :
    Bool × RingState :=
  update t (some { oid := freshOid, node := t.node, is_down := true }) s

/-! ### The `ConsistentHashing` facade -/

/-- `ConsistentHashing.put(node)`: `if node is not None:` delegate to
`put_server`, else silently do nothing.  No path raises. -/
def facade_put (node : Option ConsistentNode) (s : RingState) :
    Except PyError RingState :=
  match node with
  | none => .ok s
  | some n => .ok (put_server n s)

/-- `ConsistentHashing.get_request_server(request)`: `if request is not
None:` delegate to `get_server`, else implicitly return `None`.  No path
raises. -/
def get_request_server (request : Option (List Nat)) (s : RingState) :
    Except PyError (Option ConsistentNode) :=
  match request with
  | none => .ok none
  | some r => .ok (get_server r s)

/-- `ConsistentHashing.soft_delete(node)`: `if node is not None:` delegate
to the Ring method `soft_delete` (returning its boolean), else implicitly return
`None`.  No path raises. -/
def facade_soft_delete (freshOid : Nat) (node : Option ConsistentNode)
    (s : RingState) : Except PyError (Option Bool × RingState) :=
  match node with
  | none => .ok (none, s)
  | some n =>
    let (b, s2) := soft_delete freshOid n s
    .ok (some b, s2)

/-! ### Slot-access instrumentation for the termination/inspection claim -/

/-- Does a slot hold a node carrying the given id bytes? -/
def slotHasId (bs : List Nat) : Option ConsistentNode → Bool
  | none => false
  | some n => n.node == bs

/-- The sequence of slot indices `get_server` reads: one read of the home
slot; when it is empty, each iteration of the two probe loops
(`range(idx, capacity)` and `range(0, idx)`) reads `ring[idx]` once more
(the loops test the home index, which stays empty, so they never exit
early). -/
def get_server_reads (request : List Nat) (s : RingState) : List Nat :=
  let idx := find_index request s.capacity
  if !(s.ring.getD idx none).isNone then [idx]
  else idx :: (List.replicate (s.capacity - idx) idx ++ List.replicate idx idx)

/-- The slot indices one search loop of `update` reads: the loop stops at
the first identity match, reading each visited index once. -/
def scan_reads (target : ConsistentNode) (r : List (Option ConsistentNode)) :
    Nat → Nat → List Nat
  | _, 0 => []
  | i, fuel + 1 =>
    if pyIs (r.getD i none) (some target) then [i]
    else i :: scan_reads target r (i + 1) fuel

/-- The sequence of slot indices `update` reads: the guard reads the home
slot once (twice when the first disjunct is false and the second is
evaluated); when the guard passes, the first search loop scans from the
home index, and only if it finds nothing does the second scan
`range(0, expected_idx)` run. -/
def update_reads (t : ConsistentNode) (n_node : Option ConsistentNode)
    (s : RingState) : List Nat :=
  let e := find_index (nodeStr t) s.capacity
  (if (s.ring.getD e none).isNone then [e] else [e, e]) ++
  (if (s.ring.getD e none).isNone
      || !pyIs (s.ring.getD e none) (some t)
      || !n_node.isNone then
    scan_reads t s.ring e (s.capacity - e) ++
      (if (update_scan t n_node s.ring e (s.capacity - e)).isSome then []
       else scan_reads t s.ring 0 e)
   else [])

/-! ### Concrete scenario states

Ids as bytes: `"a" = [97]`, `"b" = [98]`, `"f" = [102]`, `"g" = [103]`,
`"j" = [106]`, `"l" = [108]`.  The relevant MD5 home indices (checked by the
theorems below, which evaluate the embedded `find_index`):
`h("a False") % 5 = 3`, `h("b False") % 5 = 4`, `h("a True") % 5 = 4`,
`h("g False") % 5 = 1`, `h("f False") % 5 = 2`, `h("j False") % 5 = 2`,
`h("g False") % 2 = 0`, `h("l False") % 2 = 1`, `h("b False") % 2 = 1`,
`h("l False") % 5 = 1`, `h("b") % 5 = 3`, `h("e") % 5 = 1`. -/

/-- `ConsistentNode("a")`, allocated as object 1. -/
def nodeA : ConsistentNode := { oid := 1, node := [97], is_down := false }

/-- `ConsistentNode("b")`, allocated as object 2. -/
def nodeB : ConsistentNode := { oid := 2, node := [98], is_down := false }

/-- The soft-deleted copy of `nodeA` that `soft_delete` allocates
(object 3). -/
def nodeADown : ConsistentNode := { oid := 3, node := [97], is_down := true }

/-- Capacity-5 ring after `put_server(nodeA)` and `put_server(nodeB)`:
`nodeA` sits at its home slot 3 and `nodeB` at its home slot 4. -/
def stateAB : RingState := put_server nodeB (put_server nodeA (ringInit 5))

/-- `stateAB` after `soft_delete(nodeA)` (passing the stored object):
slot 3 now holds the down copy `nodeADown`. -/
def stateDownA : RingState := (soft_delete 3 nodeA stateAB).2

/-- `ConsistentNode("g")`, object 11. -/
def nodeG : ConsistentNode := { oid := 11, node := [103], is_down := false }

/-- `ConsistentNode("l")`, object 12. -/
def nodeL : ConsistentNode := { oid := 12, node := [108], is_down := false }

/-- `ConsistentNode("b")` used in the capacity-2 scenarios, object 13. -/
def nodeB2 : ConsistentNode := { oid := 13, node := [98], is_down := false }

/-- Capacity-2 ring after `put_server(nodeG)` (home 0) and
`put_server(nodeL)` (home 1): both slots occupied. -/
def stateGL : RingState := put_server nodeL (put_server nodeG (ringInit 2))

/-- The ring `put_server(nodeB2)` hands to `expand_ring` after appending:
the full capacity-2 array plus the appended node (the `capacity` field is
still 2). -/
def stateAppended : RingState :=
  { ring := stateGL.ring ++ [some nodeB2], capacity := 2 }

/-- `stateGL` after `put_server(nodeB2)`: the home region `[1, 2)` is full,
the wrap check appends `nodeB2` and `expand_ring` rehashes the three
entries into a capacity-5 array. -/
def stateExpanded : RingState := put_server nodeB2 stateGL

/-- Capacity-2 ring holding only `nodeL` at slot 1 (slot 0 empty). -/
def stateL : RingState := put_server nodeL (ringInit 2)

/-- `ConsistentNode("g")`, object 21. -/
def nodeG5 : ConsistentNode := { oid := 21, node := [103], is_down := false }

/-- `ConsistentNode("f")`, object 22. -/
def nodeF5 : ConsistentNode := { oid := 22, node := [102], is_down := false }

/-- `ConsistentNode("a")`, object 23. -/
def nodeA5 : ConsistentNode := { oid := 23, node := [97], is_down := false }

/-- `ConsistentNode("b")`, object 24. -/
def nodeB5 : ConsistentNode := { oid := 24, node := [98], is_down := false }

/-- `ConsistentNode("j")`, object 25. -/
def nodeJ5 : ConsistentNode := { oid := 25, node := [106], is_down := false }

/-- Capacity-5 ring with slots 1, 2, 3, 4 holding `g, f, a, b` (each at its
home slot) and slot 0 empty. -/
def stateFour : RingState :=
  put_server nodeB5 (put_server nodeA5 (put_server nodeF5
    (put_server nodeG5 (ringInit 5))))

/-- `stateFour` after `put_server(nodeJ5)` (home 2): the region `[2, 5)` is
full, slot 1 is occupied, so the node is appended; `should_expand` then
fails because slot 0 is empty, so no rehash happens. -/
def stateOverflow : RingState := put_server nodeJ5 stateFour

/-- A second `ConsistentNode("a")` allocation (object 99), equal to `nodeA`
by id but a distinct Python object. -/
def nodeA99 : ConsistentNode := { oid := 99, node := [97], is_down := false }

/-- A replacement node for the C6 update attempt (object 100). -/
def nodeA100 : ConsistentNode := { oid := 100, node := [97], is_down := false }

/-! ### Claim theorems -/

/-- Claim C1 (code bug): in the reachable state `stateDownA` (capacity 5,
soft-deleted `"a"` at slot 3, healthy `"b"` at slot 4), the request `"b"`
hashes to slot 3 and `get_server` returns the soft-deleted node — it never
consults `is_down` — even though a healthy node exists in the ring.  This
contradicts the claim that `get` probes past down nodes and only returns
nodes with `is_down = false`. -/
theorem c1_get_returns_down_node :
    (soft_delete 3 nodeA stateAB).1 = true ∧
    get_server [98] stateDownA = some nodeADown ∧
    nodeADown.is_down = true ∧
    some nodeB ∈ stateDownA.ring ∧ nodeB.is_down = false := by
  decide

/-- Claim C2 (code bug): in the reachable state `stateAB` (healthy nodes at
slots 3 and 4, capacity 5), the request `"e"` hashes to the empty slot 1
and `get_server` returns `none` although healthy nodes exist — the probe
loops re-test `ring[idx]` instead of the advancing loop index, so probing
never finds the occupied slots.  This contradicts the claim that `get`
returns some node whenever a healthy node is present. -/
theorem c2_get_misses_healthy_node :
    get_server [101] stateAB = none ∧
    some nodeA ∈ stateAB.ring ∧ nodeA.is_down = false ∧
    some nodeB ∈ stateAB.ring ∧ nodeB.is_down = false := by
  decide

/-- Claim C3 (code bug): the three `put_server` calls behind
`stateExpanded` insert the distinct ids `"g"`, `"l"`, `"b"`, and the third
triggers growth; the rehash loop of `expand_ring` has no `break`, so it
copies the node with id `"l"` into every empty slot at or after its new
home index — the final ring holds id `"l"` in three slots.  This
contradicts the claim that the ring contains at most one slot per id. -/
theorem c3_expand_duplicates_id :
    (nodeG.node ≠ nodeL.node ∧ nodeG.node ≠ nodeB2.node ∧
      nodeL.node ≠ nodeB2.node) ∧
    stateExpanded.ring.countP (slotHasId nodeL.node) = 3 := by
  decide

/-- Claim C4 (code bug): `expand_ring` applied to the appended full ring
(`stateAppended`, the state `put_server` builds before growing) produces
`stateExpanded`; the new capacity is `2 * 2 + 1` as claimed, but the entry
with id `"b"`, present before growth, is absent afterwards: its new home
slot is occupied, every slot after it is occupied by then, and the
wraparound branch of `expand_ring` re-tests the occupied home slot and so
never places anything.  This contradicts the growth-preservation part of
the claim. -/
theorem c4_expand_drops_entry :
    expand_ring stateAppended = stateExpanded ∧
    stateAppended.ring.countP (slotHasId nodeB2.node) = 1 ∧
    stateExpanded.ring.countP (slotHasId nodeB2.node) = 0 ∧
    stateExpanded.capacity = 2 * stateAppended.capacity + 1 := by
  decide

/-- Claim C5 (code bug): in `stateL` (capacity 2, slot 1 occupied, slot 0
empty) the node `nodeB2` has home index 1, so the home region `[1, 2)`
has no empty slot; the claim says `put` must then grow and retry, but the
wrap check of `put_server` only appends when slot `home - 1` is occupied —
here slot 0 is empty, so `put_server` returns the ring unchanged and the
node is silently dropped, not present and not retrievable. -/
theorem c5_put_drops_node_when_home_region_full :
    find_index (nodeStr nodeB2) stateL.ring.length = 1 ∧
    (stateL.ring.getD 1 none).isNone = false ∧
    put_server nodeB2 stateL = stateL ∧
    stateL.ring.countP (slotHasId nodeB2.node) = 0 := by
  decide

/-- Claim C6 (code bug): `stateAB` holds the object `nodeA` (id `"a"`) at
slot 3; calling `update` with `nodeA99` — equal to `nodeA` by id but a
distinct object — returns `false` and leaves the ring unchanged, because
`update` compares slots with Python `is` (object identity), not id
equality; `soft_delete` with that object likewise reports not-found.  This
contradicts the claim that `update` locates the slot holding a node equal
by id and overwrites it. -/
theorem c6_update_ignores_equal_id :
    nodeA99.node = nodeA.node ∧
    some nodeA ∈ stateAB.ring ∧
    update nodeA99 (some nodeA100) stateAB = (false, stateAB) ∧
    soft_delete 101 nodeA99 stateAB = (false, stateAB) := by
  decide

/-- Claim C7 counterexample: passing a null value to the facade operations
raises nothing — `put` returns normally with the ring unchanged,
`get_request_server` and `soft_delete` return null — contradicting the
claim that a null argument to these operations always raises
`InvalidKeyError`. -/
theorem c7_null_is_silently_ignored :
    facade_put none (ringInit 5) = .ok (ringInit 5) ∧
    get_request_server none (ringInit 5) = .ok none ∧
    facade_soft_delete 7 none (ringInit 5) = .ok (none, ringInit 5) :=
  ⟨rfl, rfl, rfl⟩

/-- Claim C7 as amended: a null argument to the facade operations `put`,
`get_request_server`, `soft_delete` is silently ignored — `put` is a no-op
and the other two return null — and only `Hash.find_index` itself raises an
error (`ValueError`) on a null value. -/
theorem c7_amended_facade_ignores_null (s : RingState) (f cap : Nat) :
    facade_put none s = .ok s ∧
    get_request_server none s = .ok none ∧
    facade_soft_delete f none s = .ok (none, s) ∧
    find_index_checked none cap = .error .valueError :=
  ⟨rfl, rfl, rfl, rfl⟩

/-- Claim C8 (code bug): in the reachable state `stateFour` (slots 1–4
occupied, slot 0 empty, capacity 5), `put_server nodeJ5` appends a sixth
slot (home region `[2, 5)` full, slot 1 occupied) but `should_expand`
fails on the still-empty slot 0, so no rehash happens: the returned state
has a slot list of length 6 while its `capacity` field is 5.  This
contradicts the claim that the slot sequence always has length exactly
`capacity` after every operation. -/
theorem c8_put_breaks_length_capacity_invariant :
    stateOverflow = put_server nodeJ5 stateFour ∧
    stateOverflow.ring.length = 6 ∧
    stateOverflow.capacity = 5 ∧
    stateOverflow.ring.length ≠ stateOverflow.capacity := by
  decide

/-- Elements produced by `scan_reads` starting at `i` with `fuel` steps lie
in `[i, i + fuel)`. -/
theorem scan_reads_mem_lt (target : ConsistentNode)
    (r : List (Option ConsistentNode)) :
    ∀ (fuel i j : Nat), j ∈ scan_reads target r i fuel → j < i + fuel := by
  intro fuel
  induction fuel with
  | zero => intro i j hj; simp [scan_reads] at hj
  | succ n ih =>
    intro i j hj
    rw [scan_reads] at hj
    split at hj
    · rw [List.mem_singleton] at hj
      omega
    · rw [List.mem_cons] at hj
      rcases hj with hj | hj
      · omega
      · have := ih (i + 1) j hj
        omega

/-- Claim C9 (confirmed): for every ring state with positive capacity and
all inputs, `get_server` and `update` inspect at most `capacity` distinct
slots — the embedded operations are moreover total functions, so they
always terminate.  `get_server_reads` and `update_reads` enumerate the
slot reads the two source methods perform. -/
theorem c9_get_update_inspect_at_most_capacity (s : RingState)
    (request : List Nat) (t : ConsistentNode)
    (n_node : Option ConsistentNode) (h : 0 < s.capacity) :
    (get_server_reads request s).toFinset.card ≤ s.capacity ∧
    (update_reads t n_node s).toFinset.card ≤ s.capacity := by
  constructor
  · have hsub : (get_server_reads request s).toFinset ⊆
        {find_index request s.capacity} := by
      intro x hx
      rw [List.mem_toFinset] at hx
      rw [Finset.mem_singleton]
      simp only [get_server_reads] at hx
      split at hx
      · rw [List.mem_singleton] at hx
        exact hx
      · rw [List.mem_cons, List.mem_append] at hx
        rcases hx with hx | hx | hx
        · exact hx
        · exact List.eq_of_mem_replicate hx
        · exact List.eq_of_mem_replicate hx
    calc (get_server_reads request s).toFinset.card
        ≤ ({find_index request s.capacity} : Finset Nat).card :=
          Finset.card_le_card hsub
      _ = 1 := Finset.card_singleton _
      _ ≤ s.capacity := h
  · have he : find_index (nodeStr t) s.capacity < s.capacity :=
      Nat.mod_lt _ h
    have hsub : (update_reads t n_node s).toFinset ⊆
        Finset.range s.capacity := by
      intro x hx
      rw [List.mem_toFinset] at hx
      rw [Finset.mem_range]
      simp only [update_reads, List.mem_append] at hx
      rcases hx with hx | hx
      · split at hx <;> simp at hx <;> omega
      · split at hx
        · rcases List.mem_append.mp hx with hx | hx
          · have := scan_reads_mem_lt t s.ring _ _ _ hx
            omega
          · split at hx
            · simp at hx
            · have := scan_reads_mem_lt t s.ring _ _ _ hx
              omega
        · simp at hx
    calc (update_reads t n_node s).toFinset.card
        ≤ (Finset.range s.capacity).card := Finset.card_le_card hsub
      _ = s.capacity := Finset.card_range _

/-- Claim C9 witness: the inspection bound evaluated on the concrete empty
capacity-3 ring, the request `"r"` and an update of `nodeA` by `None`. -/
theorem c9_witness :
    0 < (ringInit 3).capacity ∧
    ((get_server_reads [114] (ringInit 3)).toFinset.card ≤
        (ringInit 3).capacity ∧
     (update_reads nodeA none (ringInit 3)).toFinset.card ≤
        (ringInit 3).capacity) :=
  ⟨by decide,
   c9_get_update_inspect_at_most_capacity (ringInit 3) [114] nodeA none
     (by decide)⟩

/-- Claim C10 (confirmed): the hash index of a node depends on its health
flag, not only on its id: for id `"a"` and capacity 5 the live string
`"a False"` and the down string `"a True"` hash to different indices
(3 and 4), so a soft-deleted replacement can have a different home index
than the original live node at the same capacity. -/
theorem c10_hash_depends_on_health_flag :
    ∃ (idBytes : List Nat) (cap : Nat),
      find_index (nodeStr { oid := 0, node := idBytes, is_down := false }) cap ≠
        find_index (nodeStr { oid := 0, node := idBytes, is_down := true }) cap :=
  ⟨[97], 5, by decide⟩

end DockerClient
